import Mathlib

/-!
Verification of the SmartScope analysis pipeline
(`api/services/openai_vision.py`, `api/services/smartscope_service.py`,
`api/services/cost_monitor.py`, `api/models/smartscope.py`).

Python floats are embedded as rationals (`ℚ`); `round(x, n)` is embedded as
round-half-to-even on the exact rational, which agrees with CPython on every
concrete value appearing in these theorems.  Timestamps are embedded as
integer seconds; the store's ISO-8601 string comparison (`.gte`) is order
isomorphic to this.  Fallible Python code is embedded as `Except`.
-/

namespace SmartScope

/-- Python `round` ties to the nearest even integer (banker's rounding). -/
def roundHalfEven (x : ℚ) : ℤ :=
  if x - ⌊x⌋ = 1/2 then (if ⌊x⌋ % 2 = 0 then ⌊x⌋ else ⌊x⌋ + 1)
  else ⌊x + 1/2⌋

/-- Python `round(x, n)`: round-half-even at `n` decimal digits. -/
def roundTo (n : ℕ) (x : ℚ) : ℚ :=
  (roundHalfEven (x * 10 ^ n) : ℚ) / 10 ^ n

/-- Python `round(x, 2)`. -/
def round2 (x : ℚ) : ℚ := roundTo 2 x

/-- Python `round(x, 4)`. -/
def round4 (x : ℚ) : ℚ := roundTo 4 x

/-- One step of Python `str.title()`: a letter is uppercased when the previous
character is not a letter, lowercased otherwise. -/
def pyTitleAux : List Char → Bool → List Char
  | [], _ => []
  | c :: rest, prevAlpha =>
    (if c.isAlpha then (if prevAlpha then c.toLower else c.toUpper) else c)
      :: pyTitleAux rest c.isAlpha

/-- Python `str.title()` (ASCII, as used for severity / category values). -/
def pyTitle (s : String) : String := ⟨pyTitleAux s.data false⟩

/-- `SMARTSCOPE_SEVERITIES` from `api/models/smartscope.py`. -/
def SMARTSCOPE_SEVERITIES : List String := ["Emergency", "High", "Medium", "Low"]

/-- `SmartScopeAnalysis._validate_severity`: title-case the value and require
membership in the four-value enumeration. -/
def validate_severity (value : String) : Except String String :=
  let severity := pyTitle value
  if severity ∈ SMARTSCOPE_SEVERITIES then Except.ok severity
  else Except.error "Invalid severity"

/-- `ImagePreprocessor._estimate_quality` on the final image dimensions:
megapixel score capped at 1.0, multiplied by an aspect penalty, rounded to
two decimals.  The source penalises unless `aspect_ratio < 2.2`. -/
def estimate_quality (width height : ℕ) : ℚ :=
  let megapixels : ℚ := ((width * height : ℕ) : ℚ) / 1000000
  let aspect : ℚ := ((max width height : ℕ) : ℚ) / ((max 1 (min width height) : ℕ) : ℚ)
  let ratio_penalty : ℚ := if aspect < 22/10 then 1 else 85/100
  round2 (min 1 (1/10 + megapixels / 12) * ratio_penalty)

/-- The quality score exactly as the spec words it (penalty only when the
aspect quotient strictly exceeds 2.2); kept separate from `estimate_quality`
so the two can be compared. -/
def quality_spec (width height : ℕ) : ℚ :=
  let megapixels : ℚ := ((width * height : ℕ) : ℚ) / 1000000
  let aspect : ℚ := ((max width height : ℕ) : ℚ) / ((max 1 (min width height) : ℕ) : ℚ)
  let ratio_penalty : ℚ := if aspect > 22/10 then 85/100 else 1
  round2 (min 1 (1/10 + megapixels / 12) * ratio_penalty)

/-- `ProcessedImage` from `api/services/openai_vision.py`. -/
structure ProcessedImage where
  source_url : String
  base64_data : String
  width : ℕ
  height : ℕ
  quality_score : ℚ
deriving DecidableEq

/-- `ImagePreprocessor.preprocess`: each URL is fetched and normalised
independently (`asyncio.gather` with `return_exceptions=True`); results that
are not a `ProcessedImage` — i.e. per-image fetch/decode exceptions — are
silently dropped.  The per-URL outcome is supplied by the environment as a
function `fetch`. -/
def preprocess (fetch : String → Except String ProcessedImage) (urls : List String) :
    List ProcessedImage :=
  (urls.map fetch).filterMap fun r =>
    match r with
    | Except.ok img => some img
    | Except.error _ => none

/-- The value found under `"confidence"` in the parsed model response:
absent; a Python number (`int`/`float`, satisfying the `isinstance` check);
a value that fails `isinstance` but that `float()` still converts, such as
the numeral string `"0.9"`, carrying the converted value; or a value that
`float()` cannot convert, such as `"high"` or `null`. -/
inductive ConfVal where
  | missing : ConfVal
  | num : ℚ → ConfVal
  | numStr : ℚ → ConfVal
  | nonNum : ConfVal
deriving DecidableEq

/-- One raw scope-item dictionary from the model's JSON. -/
structure ScopeItemData where
  title : Option String
  description : Option String
  trade : Option String
  materials : List String
  safety_notes : List String
  estimated_hours : Option ℚ
deriving DecidableEq

/-- One raw material dictionary from the model's JSON. -/
structure MaterialData where
  name : Option String
  quantity : Option String
  specifications : Option String
deriving DecidableEq

/-- The parsed model response (`_parse_response` output).  `Option` fields
are `none` when the key is absent from the JSON object. -/
structure ResponseData where
  primary_issue : Option String
  severity : Option String
  scope_items : Option (List ScopeItemData)
  materials : Option (List MaterialData)
  estimated_hours : Option ℚ
  safety_notes : Option String
  additional_observations : Option (List String)
  confidence : ConfVal
deriving DecidableEq

/-- `OpenAIVisionService._calculate_confidence`: a numeric model-supplied
confidence is clamped into [0,1]; otherwise a heuristic from average image
quality and the scope-item count, capped at 1 and rounded to 2 decimals. -/
def calculate_confidence (data : ResponseData) (images : List ProcessedImage) : ℚ :=
  match data.confidence with
  | ConfVal.num c => max 0 (min 1 c)
  | _ =>
    let quality_avg : ℚ :=
      (images.map (·.quality_score)).sum / ((max images.length 1 : ℕ) : ℚ)
    let scope_items := data.scope_items.getD []
    let detail_bonus : ℚ := if scope_items.length ≥ 3 then 5/100 else 0
    round2 (min 1 (6/10 + 3/10 * quality_avg + detail_bonus))

/-- The four `data.setdefault(...)` lines in `OpenAIVisionService.analyse`.
`dict.setdefault` keeps an existing entry: the confidence computed by
`calculate_confidence` is stored only when the key is absent. -/
def setdefault_data (data : ResponseData) (images : List ProcessedImage) : ResponseData :=
  { data with
    confidence :=
      match data.confidence with
      | ConfVal.missing => ConfVal.num (calculate_confidence data images)
      | c => c
    additional_observations := some (data.additional_observations.getD [])
    materials := some (data.materials.getD [])
    scope_items := some (data.scope_items.getD []) }

/-- Outcome of the single model invocation: the extracted/parsed text (or a
transport/parse failure) together with `usage.total_tokens`. -/
structure ModelReply where
  parsed : Except String ResponseData
  total_tokens : Option ℕ

/-- Error taxonomy of the pipeline (spec §7).  The source raises
`ValueError` / `RuntimeError` / `json.JSONDecodeError` / `HTTPException` /
pydantic `ValidationError` respectively. -/
inductive Err where
  | validationFailed : String → Err
  | forbidden : Err
  | upstreamUnavailable : Err
  | parseFailed : Err
  | persistenceFailed : Err
  | notFound : Err
  | responseInvalid : String → Err
deriving DecidableEq

/-- Successful result of `OpenAIVisionService.analyse`: the post-defaults
analysis data and the token usage reported by the model. -/
structure VisionResult where
  analysis : ResponseData
  tokens_used : Option ℕ

/-- External collaborators of one `process_analysis` run: the authorization
check outcome, the per-URL image fetch outcome, the single model call
outcome, and whether each store insert succeeds. -/
structure Env where
  accessOk : Bool
  fetch : String → Except String ProcessedImage
  model : Except String ModelReply
  analysisInsertOk : Bool
  costInsertOk : Bool

/-- `OpenAIVisionService.analyse`, returning the number of model invocations
performed alongside the result.  An empty survivor set raises before the
model is called; a transport error is wrapped (`upstreamUnavailable`); a
parse failure aborts; otherwise the defaults are filled in. -/
def analyse (env : Env) (urls : List String) : ℕ × Except Err VisionResult :=
  let images := preprocess env.fetch urls
  if images.isEmpty then
    (0, Except.error (Err.validationFailed "No valid images were processed for analysis"))
  else
    match env.model with
    | Except.error _ => (1, Except.error Err.upstreamUnavailable)
    | Except.ok reply =>
      match reply.parsed with
      | Except.error _ => (1, Except.error Err.parseFailed)
      | Except.ok data =>
        (1, Except.ok ⟨setdefault_data data images, reply.total_tokens⟩)

/-- `AnalysisRequest` (`api/models/smartscope.py`), the fields this pipeline
reads.  URLs and identifiers are embedded as strings. -/
structure AnalysisRequest where
  project_id : String
  photo_urls : List String
  property_type : String
  area : String
  reported_issue : String
  category : String
  organization_id : Option String

/-- The requesting `User`, the fields `process_analysis` reads. -/
structure UserT where
  id : String
  organization_id : Option String
  role : String

/-- The organisation-mismatch guard in `process_analysis` (lines 121-129):
forbidden only when both organisation ids are set and differ. -/
def orgMismatch (req : AnalysisRequest) (user : UserT) : Bool :=
  match req.organization_id, user.organization_id with
  | some a, some b => a ≠ b
  | _, _ => false

/-- A row of the `smartscope_analyses` collection as inserted by
`process_analysis` (the `insert_payload` dict). -/
structure AnalysisRow where
  id : ℕ
  project_id : String
  photo_urls : List String
  primary_issue : String
  severity : String
  category : String
  scope_items : List ScopeItemData
  materials : List MaterialData
  estimated_hours : Option ℚ
  safety_notes : Option String
  additional_observations : List String
  confidence_score : ℚ
  processing_status : String
  meta_tokens : Option ℕ
deriving DecidableEq

/-- A row of the `smartscope_costs` collection
(`CostMonitor.track_analysis_cost` payload). -/
structure CostRow where
  analysis_id : ℕ
  api_cost : ℚ
  tokens_used : ℕ
  processing_time_ms : Option ℕ
deriving DecidableEq

/-- The persistence collaborator's state: generated-id counter plus the two
append-only collections this pipeline writes. -/
structure Store where
  nextId : ℕ
  analyses : List AnalysisRow
  costs : List CostRow
deriving DecidableEq

/-- `TOKEN_COST_USD` from `api/services/cost_monitor.py`. -/
def TOKEN_COST_USD : ℚ := 1/100000

/-- `CostMonitor.estimate_cost`: `round(tokens_used * TOKEN_COST_USD, 4)`. -/
def estimate_cost (tokens_used : ℕ) : ℚ :=
  round4 ((tokens_used : ℚ) * TOKEN_COST_USD)

/-- `CostMonitor.track_analysis_cost`: a no-op when no persistence
collaborator is configured; an insert failure is caught and logged, never
re-raised; otherwise one cost row is appended (`tokens.getD 0` is the
source's `int(tokens_used or 0)`). -/
def track_analysis_cost (hasClient insertOk : Bool) (analysis_id : ℕ) (cost : ℚ)
    (tokens : Option ℕ) (costs : List CostRow) : List CostRow :=
  if ¬ hasClient then costs
  else if ¬ insertOk then costs
  else costs ++ [⟨analysis_id, cost, tokens.getD 0, none⟩]

/-- `SmartScopeService._track_costs`: skip entirely when the metadata carries
no token count, otherwise estimate the cost and record it. -/
def track_costs (hasClient insertOk : Bool) (analysis_id : ℕ) (tokens : Option ℕ)
    (costs : List CostRow) : List CostRow :=
  match tokens with
  | none => costs
  | some t => track_analysis_cost hasClient insertOk analysis_id (estimate_cost t) (some t) costs

/-- `ScopeItem` (pydantic) as produced by
`OpenAIVisionService.build_scope_items` from a raw dictionary. -/
structure ScopeItem where
  title : String
  description : String
  trade : Option String
  materials : List String
  safety_notes : List String
  estimated_hours : Option ℚ
deriving DecidableEq

/-- `build_scope_items` defaults: `item.get("title", "Task")` etc. -/
def build_scope_item (d : ScopeItemData) : ScopeItem :=
  ⟨d.title.getD "Task", d.description.getD "", d.trade, d.materials,
    d.safety_notes, d.estimated_hours⟩

/-- `MaterialItem` (pydantic) as produced by `build_materials`. -/
structure MaterialItem where
  name : String
  quantity : Option String
  specifications : Option String
deriving DecidableEq

/-- `build_materials` defaults: `item.get("name", "Material")`. -/
def build_material (d : MaterialData) : MaterialItem :=
  ⟨d.name.getD "Material", d.quantity, d.specifications⟩

/-- The `SmartScopeAnalysis` record returned to the caller (the fields the
pipeline computes). -/
structure Analysis where
  id : ℕ
  project_id : String
  photo_urls : List String
  primary_issue : String
  severity : String
  category : String
  scope_items : List ScopeItem
  materials : List MaterialItem
  estimated_hours : Option ℚ
  safety_notes : Option String
  additional_observations : List String
  confidence_score : ℚ
  tokens_used : Option ℕ
deriving DecidableEq

/-- `SmartScopeService._build_analysis_from_record`: constructing the
`SmartScopeAnalysis` pydantic model runs `_validate_severity` and the
`confidence_score` bound `ge=0.0, le=1.0`; either failure raises. -/
def build_analysis_from_record (row : AnalysisRow) (tokens : Option ℕ) :
    Except Err Analysis :=
  match validate_severity row.severity with
  | Except.error e => Except.error (Err.responseInvalid e)
  | Except.ok sev =>
    if row.confidence_score < 0 ∨ 1 < row.confidence_score then
      Except.error (Err.responseInvalid "confidence_score not in range 0..1")
    else
      Except.ok
        { id := row.id
          project_id := row.project_id
          photo_urls := row.photo_urls
          primary_issue := row.primary_issue
          severity := sev
          category := row.category
          scope_items := row.scope_items.map build_scope_item
          materials := row.materials.map build_material
          estimated_hours := row.estimated_hours
          safety_notes := row.safety_notes
          additional_observations := row.additional_observations
          confidence_score := row.confidence_score
          tokens_used := tokens }

/-- `float(analysis_payload.get("confidence", 0.0))` in `process_analysis`:
an absent key defaults to 0.0, a numeral string converts successfully to its
value, and only a non-convertible value makes `float()` raise. -/
def floatOfConf : ConfVal → Except Err ℚ
  | ConfVal.num c => Except.ok c
  | ConfVal.numStr c => Except.ok c
  | ConfVal.missing => Except.ok 0
  | ConfVal.nonNum =>
    Except.error (Err.validationFailed "could not convert confidence to float")

/-- `SmartScopeService.process_analysis` over an explicit store.  Returns the
result handed to the caller, the final store, and the number of model
invocations performed.  The insert runs before `_track_costs`, which runs
before `_build_analysis_from_record`, exactly as in the source. -/
def process_analysis (env : Env) (req : AnalysisRequest) (user : UserT)
    (store : Store) : Except Err Analysis × Store × ℕ :=
  if ¬ env.accessOk then (Except.error Err.forbidden, store, 0)
  else if orgMismatch req user then (Except.error Err.forbidden, store, 0)
  else
    match analyse env req.photo_urls with
    | (calls, Except.error e) => (Except.error e, store, calls)
    | (calls, Except.ok vres) =>
      match floatOfConf vres.analysis.confidence with
      | Except.error e => (Except.error e, store, calls)
      | Except.ok conf =>
        if ¬ env.analysisInsertOk then
          (Except.error Err.persistenceFailed, store, calls)
        else
          let row : AnalysisRow :=
            { id := store.nextId
              project_id := req.project_id
              photo_urls := req.photo_urls
              primary_issue := vres.analysis.primary_issue.getD ""
              severity := vres.analysis.severity.getD "Medium"
              category := req.category
              scope_items := vres.analysis.scope_items.getD []
              materials := vres.analysis.materials.getD []
              estimated_hours := vres.analysis.estimated_hours
              safety_notes := vres.analysis.safety_notes
              additional_observations := vres.analysis.additional_observations.getD []
              confidence_score := conf
              processing_status := "completed"
              meta_tokens := vres.tokens_used }
          let store1 : Store :=
            { store with nextId := store.nextId + 1, analyses := store.analyses ++ [row] }
          let store2 : Store :=
            { store1 with
              costs := track_costs true env.costInsertOk row.id vres.tokens_used store1.costs }
          (build_analysis_from_record row vres.tokens_used, store2, calls)

/-- `SmartScopeService.get_analysis`: select the row by id (404 when absent),
re-check project access, then rebuild the `SmartScopeAnalysis` model from the
row and the metadata embedded in its raw-response blob. -/
def get_analysis (accessOk : Bool) (store : Store) (analysis_id : ℕ) :
    Except Err Analysis :=
  match store.analyses.find? (fun r => r.id == analysis_id) with
  | none => Except.error Err.notFound
  | some row =>
    if ¬ accessOk then Except.error Err.forbidden
    else build_analysis_from_record row row.meta_tokens

/-- A stored `smartscope_costs` row as read back by the cost monitor:
`api_cost` and `created_at` (embedded as integer epoch seconds; the source
compares ISO-8601 strings, which is order isomorphic). -/
structure CostRecord where
  api_cost : ℚ
  created_at : ℤ
deriving DecidableEq

/-- `CostMonitor._fetch_costs_since`: `created_at >= since` (`.gte`). -/
def fetch_costs_since (records : List CostRecord) (since : ℤ) : List CostRecord :=
  records.filter fun r => since ≤ r.created_at

/-- `CostMonitor._sum_costs_since`. -/
def sum_costs_since (records : List CostRecord) (since : ℤ) : ℚ :=
  ((fetch_costs_since records since).map (·.api_cost)).sum

/-- `(total / budget) * 100 if budget else 0` in `check_budget_status`. -/
def usage_percent (total budget : ℚ) : ℚ :=
  if budget ≠ 0 then total / budget * 100 else 0

/-- The traffic-light selection in `check_budget_status`. -/
def budget_color (daily_usage monthly_usage : ℚ) : String :=
  if daily_usage > 90 ∨ monthly_usage > 90 then "red"
  else if daily_usage > 70 ∨ monthly_usage > 70 then "amber"
  else "green"

/-- The dictionary returned by `CostMonitor.check_budget_status`. -/
structure BudgetStatus where
  status : String
  daily_spend : ℚ
  monthly_spend : ℚ
  daily_budget : ℚ
  monthly_budget : ℚ
  daily_usage_percent : ℚ
  monthly_usage_percent : ℚ
deriving DecidableEq

/-- `CostMonitor.check_budget_status` (with a configured persistence
collaborator; the client-less branch returns an "unavailable" dict and
touches none of these computations).  86400 seconds = `timedelta(days=1)`. -/
def check_budget_status (daily_budget monthly_budget : ℚ)
    (records : List CostRecord) (now : ℤ) : BudgetStatus :=
  let daily_total := sum_costs_since records (now - 86400)
  let monthly_total := sum_costs_since records (now - 30 * 86400)
  let daily_usage := usage_percent daily_total daily_budget
  let monthly_usage := usage_percent monthly_total monthly_budget
  { status := budget_color daily_usage monthly_usage
    daily_spend := round4 daily_total
    monthly_spend := round4 monthly_total
    daily_budget := daily_budget
    monthly_budget := monthly_budget
    daily_usage_percent := round2 daily_usage
    monthly_usage_percent := round2 monthly_usage }

/-- Python `int(s)` on the timeframe prefix: an optional sign followed by at
least one digit (surrounding whitespace / underscore groupings are not used
by any caller and are not modelled). -/
def parseDigits : List Char → Option ℕ
  | [] => none
  | cs =>
    if cs.all Char.isDigit then
      some (cs.foldl (fun a c => a * 10 + (c.toNat - 48)) 0)
    else none

/-- Python `int` applied to a string, as `Option`. -/
def pyInt (s : String) : Option ℤ :=
  match s.data with
  | '-' :: rest => (parseDigits rest).map fun n => -(n : ℤ)
  | '+' :: rest => (parseDigits rest).map fun n => (n : ℤ)
  | cs => (parseDigits cs).map fun n => (n : ℤ)

/-- Python `str.lower()` (ASCII, as used on timeframe codes). -/
def pyLower (s : String) : String := ⟨s.data.map Char.toLower⟩

/-- Python `s.endswith(c)` for a one-character suffix, the only shape the
source tests (`"d"` / `"w"`). -/
def lastIs (s : String) (c : Char) : Bool := s.data.getLast? == some c

/-- Python `s[:-1]`. -/
def strInit (s : String) : String := ⟨s.data.dropLast⟩

/-- The dictionary returned by `CostMonitor.generate_cost_report`. -/
structure CostReport where
  timeframe : String
  total_cost : ℚ
  analyses : ℕ
  average_cost : ℚ
deriving DecidableEq

/-- The aggregation part of `generate_cost_report` over the selected
window: total, count, and `round(total/count, 4)` (0.0 on empty). -/
def report_over (tf : String) (records : List CostRecord) (since : ℤ) : CostReport :=
  let recs := fetch_costs_since records since
  let total := (recs.map (·.api_cost)).sum
  { timeframe := tf
    total_cost := round4 total
    analyses := recs.length
    average_cost := if recs.length ≠ 0 then round4 (total / (recs.length : ℚ)) else 0 }

/-- `CostMonitor.generate_cost_report`: lowercase the timeframe; a trailing
`d`/`w` makes `int()` parse the prefix (raising `ValueError` when it is not
a numeral); anything else defaults to a 30-day window. -/
def generate_cost_report (records : List CostRecord) (now : ℤ) (timeframe : String) :
    Except String CostReport :=
  let tf := pyLower timeframe
  if lastIs tf 'd' then
    match pyInt (strInit tf) with
    | some n => Except.ok (report_over tf records (now - n * 86400))
    | none => Except.error "invalid literal for int() with base 10"
  else if lastIs tf 'w' then
    match pyInt (strInit tf) with
    | some n => Except.ok (report_over tf records (now - n * 7 * 86400))
    | none => Except.error "invalid literal for int() with base 10"
  else Except.ok (report_over tf records (now - 30 * 86400))

/-- A processed image with the quality score 0.8 used by the concrete
scenarios (matching the repository's test fixture dimensions). -/
def testImage : ProcessedImage := ⟨"u1", "ZGF0YQ==", 1024, 768, 8/10⟩

/-- An environment whose every image fetch succeeds. -/
def fetchOk : String → Except String ProcessedImage := fun u =>
  Except.ok { testImage with source_url := u }

/-- An environment whose every image fetch fails. -/
def fetchFail : String → Except String ProcessedImage := fun _ =>
  Except.error "fetch failed"

/-- A raw scope-item dictionary for the concrete scenarios. -/
def testItem : ScopeItemData :=
  ⟨some "Replace P-trap", some "Remove existing trap", some "Plumbing", [], [], some (3/2)⟩

/-- A well-formed parsed model response for the concrete scenarios. -/
def testData : ResponseData :=
  { primary_issue := some "Leaking trap"
    severity := some "High"
    scope_items := some [testItem, testItem, testItem]
    materials := some []
    estimated_hours := some (3/2)
    safety_notes := some "Shut off water"
    additional_observations := some []
    confidence := ConfVal.num (91/100) }

/-- An environment for one run: access granted, fetches succeed, the model
returns the given parsed data and token usage, both inserts succeed. -/
def mkEnv (data : ResponseData) (tokens : Option ℕ) : Env :=
  { accessOk := true
    fetch := fetchOk
    model := Except.ok ⟨Except.ok data, tokens⟩
    analysisInsertOk := true
    costInsertOk := true }

/-- A request for the concrete scenarios. -/
def testReq : AnalysisRequest :=
  ⟨"proj1", ["u1"], "Residential", "Bathroom", "Trap leaking", "Plumbing", none⟩

/-- A requesting user for the concrete scenarios. -/
def testUser : UserT := ⟨"user1", none, "manager"⟩

/-- An empty persistence store. -/
def store0 : Store := ⟨0, [], []⟩

/-- One full pipeline run from the standard fixtures, with the given parsed
model data and reported token usage. -/
def runWith (data : ResponseData) (tokens : Option ℕ) :
    Except Err Analysis × Store × ℕ :=
  process_analysis (mkEnv data tokens) testReq testUser store0

lemma analyse_mkEnv (d : ResponseData) (tk : Option ℕ) :
    analyse (mkEnv d tk) ["u1"] =
      (1, Except.ok ⟨setdefault_data d [{ testImage with source_url := "u1" }], tk⟩) := rfl

lemma mkEnv_accessOk (d : ResponseData) (tk : Option ℕ) :
    (mkEnv d tk).accessOk = true := rfl

lemma mkEnv_costInsertOk (d : ResponseData) (tk : Option ℕ) :
    (mkEnv d tk).costInsertOk = true := rfl

lemma mkEnv_analysisInsertOk (d : ResponseData) (tk : Option ℕ) :
    (mkEnv d tk).analysisInsertOk = true := rfl

lemma orgMismatch_test : orgMismatch testReq testUser = false := rfl

lemma vs_high : validate_severity "high" = Except.ok "High" := rfl

lemma vs_urgent : validate_severity "urgent" = Except.error "Invalid severity" := rfl

lemma vs_High : validate_severity "High" = Except.ok "High" := rfl

/-- Claim C5 counterexample: at aspect quotient exactly 2.2 (an 1100×500
image) the code applies the 0.85 penalty (its guard is `< 2.2` for no
penalty), while the claimed formula — penalty only when the quotient
strictly exceeds 2.2 — applies none: 0.12 versus 0.15. -/
theorem C5_ratio_boundary_counterexample :
    estimate_quality 1100 500 = 12/100 ∧
    quality_spec 1100 500 = 15/100 ∧
    estimate_quality 1100 500 ≠ quality_spec 1100 500 := by
  refine ⟨?_, ?_, ?_⟩ <;>
    norm_num [estimate_quality, quality_spec, round2, roundTo, roundHalfEven]

/-- Claim C5 (amended): the quality score is
`round2 (min 1 (0.1 + wh/1e6/12) * penalty)` with `penalty = 0.85` exactly
when the aspect quotient is at least 2.2 (so a quotient of exactly 2.2 is
penalised) and `1` otherwise; a 4000×3000 image scores 1.0 and a 4000×1200
image scores the 0.85 penalty applied to its capped megapixel score. -/
theorem C5_quality_formula (w h : ℕ) :
    estimate_quality w h =
      round2 (min 1 (1/10 + ((w * h : ℕ) : ℚ) / 1000000 / 12) *
        (if (22/10 : ℚ) ≤ ((max w h : ℕ) : ℚ) / ((max 1 (min w h) : ℕ) : ℚ)
          then 85/100 else 1)) ∧
    estimate_quality 4000 3000 = 1 ∧
    estimate_quality 4000 1200 =
      round2 ((85/100) * min 1 (1/10 + ((4000 * 1200 : ℕ) : ℚ) / 1000000 / 12)) := by
  refine ⟨?_, ?_, ?_⟩
  · simp only [estimate_quality]
    split_ifs with h1 h2 <;> first | rfl | linarith
  · norm_num [estimate_quality, round2, roundTo, roundHalfEven]
  · norm_num [estimate_quality, round2, roundTo, roundHalfEven]

/-- Claim C9: `_validate_severity` title-cases the value and accepts it
exactly when the result is one of the four enumerated severities; a response
severity `"high"` yields an accepted analysis carrying `"High"` — both the
record returned by the run and the one re-read from the store — while
`"urgent"` is rejected as a validation failure. -/
theorem C9_severity_normalisation :
    (∀ s : String, (validate_severity s).toOption =
      if pyTitle s ∈ SMARTSCOPE_SEVERITIES then some (pyTitle s) else none) ∧
    validate_severity "high" = Except.ok "High" ∧
    validate_severity "urgent" = Except.error "Invalid severity" ∧
    ((runWith { testData with severity := some "high" } (some 200)).1.map
      (·.severity)) = Except.ok "High" ∧
    ((get_analysis true
        (runWith { testData with severity := some "high" } (some 200)).2.1 0).map
      (·.severity)) = Except.ok "High" ∧
    ((runWith { testData with severity := some "urgent" } (some 200)).1.map
      (·.severity)) = Except.error (Err.responseInvalid "Invalid severity") := by
  refine ⟨?_, rfl, rfl, ?_, ?_, ?_⟩
  · intro s
    simp only [validate_severity]
    split <;> rfl
  all_goals
    norm_num [runWith, process_analysis, mkEnv_accessOk, orgMismatch_test, orgMismatch, testReq,
      testUser, store0, analyse_mkEnv, mkEnv_analysisInsertOk, mkEnv_costInsertOk,
      setdefault_data, testData, floatOfConf, build_analysis_from_record, vs_high,
      vs_urgent, track_costs, track_analysis_cost, estimate_cost, get_analysis,
      TOKEN_COST_USD, round4, roundTo, roundHalfEven, Except.map]

/-- Claim C1 (code bug): a model response whose severity fails schema
validation — `"urgent"` — still writes the analysis row (and its cost row)
to the store: the pydantic validation only runs while building the response
model, after the insert, so the failed run grows the analyses collection by
one, and reading the persisted row back fails the same validation. -/
theorem C1_severity_validation_after_insert :
    (runWith { testData with severity := some "urgent" } (some 200)).1 =
      Except.error (Err.responseInvalid "Invalid severity") ∧
    ((runWith { testData with severity := some "urgent" } (some 200)).2.1.analyses.map
      (·.severity)) = ["urgent"] ∧
    (runWith { testData with severity := some "urgent" } (some 200)).2.1.analyses.length =
      store0.analyses.length + 1 ∧
    (runWith { testData with severity := some "urgent" } (some 200)).2.1.costs.length = 1 ∧
    (get_analysis true
        (runWith { testData with severity := some "urgent" } (some 200)).2.1 0) =
      Except.error (Err.responseInvalid "Invalid severity") := by
  refine ⟨?_, ?_, ?_, ?_, ?_⟩ <;>
    norm_num [runWith, process_analysis, mkEnv_accessOk, orgMismatch_test, orgMismatch, testReq,
      testUser, store0, analyse_mkEnv, mkEnv_analysisInsertOk, mkEnv_costInsertOk,
      setdefault_data, testData, floatOfConf, build_analysis_from_record, vs_urgent,
      track_costs, track_analysis_cost, estimate_cost, get_analysis,
      TOKEN_COST_USD, round4, roundTo, roundHalfEven, Except.map]

/-- Claim C2 (code bug): a model-supplied numeric confidence is never
clamped.  `_calculate_confidence` does compute the clamp (1.5 ↦ 1.0), but
`dict.setdefault` discards it because the key is present, so the analysis
data keeps 1.5 verbatim, the row is persisted with `confidence_score = 1.5`,
and the run then fails the response model's `[0,1]` bound — instead of
carrying the claimed clamped value 1.0. -/
theorem C2_model_confidence_not_clamped :
    calculate_confidence { testData with confidence := ConfVal.num (3/2) } [testImage] = 1 ∧
    (setdefault_data { testData with confidence := ConfVal.num (3/2) } [testImage]).confidence =
      ConfVal.num (3/2) ∧
    ((runWith { testData with confidence := ConfVal.num (3/2) } (some 200)).2.1.analyses.map
      (·.confidence_score)) = [3/2] ∧
    (runWith { testData with confidence := ConfVal.num (3/2) } (some 200)).1 =
      Except.error (Err.responseInvalid "confidence_score not in range 0..1") ∧
    (3/2 : ℚ) ≠ 1 := by
  refine ⟨?_, rfl, ?_, ?_, by norm_num⟩ <;>
    norm_num [runWith, process_analysis, mkEnv_accessOk, orgMismatch_test, orgMismatch, testReq,
      testUser, store0, analyse_mkEnv, mkEnv_analysisInsertOk, mkEnv_costInsertOk,
      setdefault_data, testData, floatOfConf, build_analysis_from_record, vs_High,
      track_costs, track_analysis_cost, estimate_cost, calculate_confidence,
      TOKEN_COST_USD, round2, round4, roundTo, roundHalfEven]

lemma preprocess_nil_iff (f : String → Except String ProcessedImage) (urls : List String) :
    preprocess f urls = [] ↔ ∀ u ∈ urls, ∃ e, f u = Except.error e := by
  unfold preprocess
  rw [List.filterMap_eq_nil_iff]
  constructor
  · intro h u hu
    have hmem := h (f u) (List.mem_map_of_mem f hu)
    cases hf : f u with
    | ok img => rw [hf] at hmem; simp at hmem
    | error e => exact ⟨e, rfl⟩
  · rintro h r hr
    obtain ⟨u, hu, rfl⟩ := List.mem_map.mp hr
    obtain ⟨e, he⟩ := h u hu
    simp [he]

/-- Claim C3: with an empty `photo_urls` list, or when every URL fails to
fetch, `process_analysis` raises the validation failure with zero model
invocations and leaves the store untouched; with at least one surviving
image the run performs its single model call and can no longer raise that
validation failure. -/
theorem C3_no_images_aborts_before_model (env : Env) (req : AnalysisRequest)
    (user : UserT) (store : Store) :
    (env.accessOk = true → orgMismatch req user = false →
      (req.photo_urls = [] ∨ ∀ u ∈ req.photo_urls, ∃ e, env.fetch u = Except.error e) →
      process_analysis env req user store =
        (Except.error (Err.validationFailed "No valid images were processed for analysis"),
          store, 0)) ∧
    ((∃ u ∈ req.photo_urls, ∃ img, env.fetch u = Except.ok img) →
      (analyse env req.photo_urls).1 = 1 ∧
      ∀ msg, (analyse env req.photo_urls).2 ≠
        Except.error (Err.validationFailed msg)) := by
  constructor
  · intro hacc hmis hempty
    have himg : preprocess env.fetch req.photo_urls = [] := by
      rcases hempty with h | h
      · rw [h]; rfl
      · exact (preprocess_nil_iff _ _).mpr h
    have hana : analyse env req.photo_urls =
        (0, Except.error
          (Err.validationFailed "No valid images were processed for analysis")) := by
      simp [analyse, himg]
    simp [process_analysis, hacc, hmis, hana]
  · rintro ⟨u, hu, img, himg⟩
    have hne : preprocess env.fetch req.photo_urls ≠ [] := by
      intro h
      obtain ⟨e, he⟩ := (preprocess_nil_iff _ _).mp h u hu
      rw [he] at himg
      cases himg
    have hisE : (preprocess env.fetch req.photo_urls).isEmpty = false := by
      cases hp : preprocess env.fetch req.photo_urls with
      | nil => exact absurd hp hne
      | cons a l => rfl
    cases hm : env.model with
    | error e => simp [analyse, hisE, hm]
    | ok reply =>
      cases hp : reply.parsed with
      | error e => simp [analyse, hisE, hm, hp]
      | ok data => simp [analyse, hisE, hm, hp]

theorem C3_no_images_witness :
    process_analysis ⟨true, fetchFail, Except.error "down", true, true⟩
        testReq testUser store0 =
      (Except.error (Err.validationFailed "No valid images were processed for analysis"),
        store0, 0) :=
  (C3_no_images_aborts_before_model ⟨true, fetchFail, Except.error "down", true, true⟩
      testReq testUser store0).1 rfl rfl
    (Or.inr fun _ _ => ⟨"fetch failed", rfl⟩)

/-- Claim C4: usage percent is 0 whenever the corresponding budget is 0,
the status is red / amber / green exactly by the 90 / 70 thresholds on
either window's usage, and the two concrete budget scenarios: a 0.5 cost
record in the last 24h against a 1.0 daily budget gives 50.0 and green,
a 0.95 record gives red. -/
theorem C4_budget_status :
    (∀ total budget : ℚ, budget = 0 → usage_percent total budget = 0) ∧
    (∀ du mu : ℚ, budget_color du mu = "red" ↔ 90 < du ∨ 90 < mu) ∧
    (∀ du mu : ℚ, budget_color du mu = "amber" ↔
      ((70 < du ∨ 70 < mu) ∧ ¬(90 < du ∨ 90 < mu))) ∧
    (∀ du mu : ℚ, budget_color du mu = "green" ↔ (du ≤ 70 ∧ mu ≤ 70)) ∧
    (check_budget_status 1 500 [⟨1/2, 956800⟩] 1000000).daily_usage_percent = 50 ∧
    (check_budget_status 1 500 [⟨1/2, 956800⟩] 1000000).status = "green" ∧
    (check_budget_status 1 500 [⟨19/20, 956800⟩] 1000000).status = "red" := by
  refine ⟨?_, ?_, ?_, ?_, ?_, ?_, ?_⟩
  · intro t b hb
    simp [usage_percent, hb]
  · intro du mu
    unfold budget_color
    split_ifs with h1 h2
    · exact iff_of_true rfl h1
    · exact ⟨fun h => absurd h (by decide), fun h => absurd h h1⟩
    · exact ⟨fun h => absurd h (by decide), fun h => absurd h h1⟩
  · intro du mu
    unfold budget_color
    split_ifs with h1 h2
    · exact ⟨fun h => absurd h (by decide), fun h => absurd h1 h.2⟩
    · exact iff_of_true rfl ⟨h2, h1⟩
    · exact ⟨fun h => absurd h (by decide), fun h => absurd h.1 h2⟩
  · intro du mu
    unfold budget_color
    split_ifs with h1 h2
    · refine ⟨fun h => absurd h (by decide), fun h => ?_⟩
      rcases h1 with hx | hx <;> [linarith [h.1]; linarith [h.2]]
    · refine ⟨fun h => absurd h (by decide), fun h => ?_⟩
      rcases h2 with hx | hx <;> [linarith [h.1]; linarith [h.2]]
    · push_neg at h1 h2
      exact iff_of_true rfl h2
  all_goals
    norm_num [check_budget_status, sum_costs_since, fetch_costs_since, usage_percent,
      budget_color, round2, roundTo, roundHalfEven, List.filter]

theorem C4_budget_status_witness : usage_percent 5 0 = 0 :=
  C4_budget_status.1 5 0 rfl

/-- Claim C6 counterexample: a model response carrying a non-numeric
confidence value has no numeric confidence, yet the heuristic (which would
be 0.89 here) is not assigned — `setdefault` keeps the non-numeric entry,
`analyse` returns it unchanged, and the run then fails float conversion
before the insert. -/
theorem C6_nonnumeric_confidence_counterexample :
    (setdefault_data { testData with confidence := ConfVal.nonNum } [testImage]).confidence =
      ConfVal.nonNum ∧
    calculate_confidence { testData with confidence := ConfVal.nonNum } [testImage] =
      89/100 ∧
    ((analyse (mkEnv { testData with confidence := ConfVal.nonNum } (some 200)) ["u1"]).2.map
      fun v => v.analysis.confidence) = Except.ok ConfVal.nonNum ∧
    ConfVal.nonNum ≠ ConfVal.num (89/100) ∧
    (runWith { testData with confidence := ConfVal.nonNum } (some 200)).1 =
      Except.error (Err.validationFailed "could not convert confidence to float") ∧
    (runWith { testData with confidence := ConfVal.nonNum } (some 200)).2.1.analyses =
      [] := by
  refine ⟨rfl, ?_, rfl, by simp, ?_, ?_⟩
  · norm_num [calculate_confidence, testData, testItem, testImage, round2, roundTo,
      roundHalfEven]
  all_goals
    norm_num [runWith, process_analysis, mkEnv_accessOk, orgMismatch_test, orgMismatch,
      testReq, testUser, store0, analyse_mkEnv, setdefault_data, testData, floatOfConf]

/-- Claim C6 (amended): when the model response has no confidence entry at
all, the assigned confidence is the heuristic
`round2 (min 1 (0.6 + 0.3·avg_quality + bonus))` with a 0.05 bonus exactly
when there are at least 3 scope items; average quality 0.8 with 3 scope
items yields 0.89.  A present but non-numeric entry is kept instead of the
heuristic: a float-convertible numeral string such as `"0.9"` is carried
through and persisted as 0.9 by a successful run. -/
theorem C6_heuristic_confidence (data : ResponseData) (images : List ProcessedImage)
    (h : data.confidence = ConfVal.missing) :
    (setdefault_data data images).confidence =
      ConfVal.num (round2 (min 1 (6/10 +
        3/10 * ((images.map (·.quality_score)).sum / ((max images.length 1 : ℕ) : ℚ)) +
        (if 3 ≤ (data.scope_items.getD []).length then 5/100 else 0)))) ∧
    (setdefault_data { testData with confidence := ConfVal.missing } [testImage]).confidence =
      ConfVal.num (89/100) ∧
    (setdefault_data { testData with confidence := ConfVal.numStr (9/10) }
      [testImage]).confidence = ConfVal.numStr (9/10) ∧
    ((runWith { testData with confidence := ConfVal.numStr (9/10) } (some 200)).1.map
      (·.confidence_score)) = Except.ok (9/10) ∧
    ((runWith { testData with confidence := ConfVal.numStr (9/10) }
        (some 200)).2.1.analyses.map (·.confidence_score)) = [9/10] := by
  refine ⟨?_, ?_, rfl, ?_, ?_⟩
  · simp [setdefault_data, h, calculate_confidence, ge_iff_le]
  · norm_num [setdefault_data, calculate_confidence, testData, testItem, testImage,
      round2, roundTo, roundHalfEven]
  all_goals
    norm_num [runWith, process_analysis, mkEnv_accessOk, orgMismatch_test, orgMismatch,
      testReq, testUser, store0, analyse_mkEnv, mkEnv_analysisInsertOk, mkEnv_costInsertOk,
      setdefault_data, testData, floatOfConf, build_analysis_from_record, vs_High,
      track_costs, track_analysis_cost, estimate_cost, TOKEN_COST_USD,
      round4, roundTo, roundHalfEven, Except.map]

theorem C6_heuristic_confidence_witness :
    (setdefault_data { testData with confidence := ConfVal.missing } [testImage]).confidence =
      ConfVal.num (89/100) :=
  (C6_heuristic_confidence { testData with confidence := ConfVal.missing } [testImage]
    rfl).2.1

/-- Claim C7 counterexample: a reported token count of exactly zero still
appends a cost record (the source only skips when the count is `None`), so
"a CostRecord is never appended for an analysis with zero token usage" fails:
the successful run below reports 0 tokens and appends one record. -/
theorem C7_zero_tokens_cost_recorded :
    (runWith testData (some 0)).2.1.costs = [⟨0, 0, 0, none⟩] ∧
    ((runWith testData (some 0)).1.map (·.severity)) = Except.ok "High" := by
  constructor <;>
    norm_num [runWith, process_analysis, mkEnv_accessOk, orgMismatch_test, orgMismatch,
      testReq, testUser, store0, analyse_mkEnv, mkEnv_analysisInsertOk, mkEnv_costInsertOk,
      setdefault_data, testData, floatOfConf, build_analysis_from_record, vs_High,
      track_costs, track_analysis_cost, estimate_cost, TOKEN_COST_USD,
      round4, roundTo, roundHalfEven, Except.map]

/-- Claim C7 (amended): no record is appended when the metadata carries no
token count or no persistence collaborator is configured, and no error is
raised in either case; when a count `t` is reported (zero included) and the
insert succeeds, exactly one record is appended carrying
`round(t × rate, 4)` and referencing the analysis id — concretely, the
successful 200-token run appends one record for the new analysis id with
cost 0.002, and the token-less run appends nothing and still succeeds. -/
theorem C7_cost_tracking (hasClient insertOk : Bool) (aid t : ℕ)
    (costs : List CostRow) :
    track_costs hasClient insertOk aid none costs = costs ∧
    track_costs false insertOk aid (some t) costs = costs ∧
    track_costs true true aid (some t) costs =
      costs ++ [⟨aid, round4 ((t : ℚ) * TOKEN_COST_USD), t, none⟩] ∧
    (runWith testData (some 200)).2.1.costs = [⟨store0.nextId, 1/500, 200, none⟩] ∧
    ((runWith testData (some 200)).1.map (·.id)) = Except.ok store0.nextId ∧
    (runWith testData none).2.1.costs = [] ∧
    ((runWith testData none).1.map (·.severity)) = Except.ok "High" := by
  refine ⟨rfl, by simp [track_costs, track_analysis_cost], ?_, ?_, ?_, ?_, ?_⟩
  · simp [track_costs, track_analysis_cost, estimate_cost]
  all_goals
    norm_num [runWith, process_analysis, mkEnv_accessOk, orgMismatch_test, orgMismatch,
      testReq, testUser, store0, analyse_mkEnv, mkEnv_analysisInsertOk, mkEnv_costInsertOk,
      setdefault_data, testData, floatOfConf, build_analysis_from_record, vs_High,
      track_costs, track_analysis_cost, estimate_cost, TOKEN_COST_USD,
      round4, roundTo, roundHalfEven, Except.map]

/-- Claim C8 counterexample: `"d"` is not of the form `"<N>d"`, yet instead
of defaulting to the 30-day window the code feeds the empty prefix to
`int()`, which raises. -/
theorem C8_malformed_timeframe_raises :
    generate_cost_report [] 0 "d" =
      Except.error "invalid literal for int() with base 10" := rfl

/-- Claim C8 (amended): only timeframes that do not end in `d`/`w` (after
lowercasing) default to the 30-day window without error; well-formed
`"<N>d"`/`"<N>w"` timeframes use an N-day/N-week window, and the report
carries the window's total, count, and total/count as the average (0 when
the count is 0); a timeframe ending in `d`/`w` whose prefix is not a numeral
raises instead of defaulting. -/
theorem C8_cost_report (records : List CostRecord) (now : ℤ) (tf : String) (n : ℤ) :
    (lastIs (pyLower tf) 'd' = false → lastIs (pyLower tf) 'w' = false →
      generate_cost_report records now tf =
        Except.ok (report_over (pyLower tf) records (now - 30 * 86400))) ∧
    (lastIs (pyLower tf) 'd' = true → pyInt (strInit (pyLower tf)) = some n →
      generate_cost_report records now tf =
        Except.ok (report_over (pyLower tf) records (now - n * 86400))) ∧
    (lastIs (pyLower tf) 'd' = false → lastIs (pyLower tf) 'w' = true →
      pyInt (strInit (pyLower tf)) = some n →
      generate_cost_report records now tf =
        Except.ok (report_over (pyLower tf) records (now - n * 7 * 86400))) ∧
    (lastIs (pyLower tf) 'd' = true → pyInt (strInit (pyLower tf)) = none →
      generate_cost_report records now tf =
        Except.error "invalid literal for int() with base 10") ∧
    (∀ s recs since2, (report_over s recs since2).average_cost =
      (if (fetch_costs_since recs since2).length ≠ 0 then
        round4 ((((fetch_costs_since recs since2).map (·.api_cost)).sum) /
          (((fetch_costs_since recs since2).length : ℕ) : ℚ)) else 0)) ∧
    generate_cost_report [⟨1/2, -100⟩] 0 "7d" = Except.ok ⟨"7d", 1/2, 1, 1/2⟩ ∧
    generate_cost_report [] 0 "3d" = Except.ok ⟨"3d", 0, 0, 0⟩ := by
  refine ⟨?_, ?_, ?_, ?_, fun s recs since2 => rfl, ?_, ?_⟩
  · intro h1 h2
    simp [generate_cost_report, h1, h2]
  · intro h1 h2
    simp [generate_cost_report, h1, h2]
  · intro h1 h2 h3
    simp [generate_cost_report, h1, h2, h3]
  · intro h1 h2
    simp [generate_cost_report, h1, h2]
  · have h1 : lastIs "7d" 'd' = true := rfl
    have h2 : pyInt (strInit "7d") = some 7 := rfl
    have h3 : pyLower "7d" = "7d" := rfl
    rw [show generate_cost_report [⟨1/2, -100⟩] 0 "7d" =
        Except.ok (report_over "7d" [⟨1/2, -100⟩] (0 - 7 * 86400)) from by
      simp [generate_cost_report, h1, h2, h3]]
    norm_num [report_over, fetch_costs_since, round4, roundTo, roundHalfEven, List.filter]
  · have h1 : lastIs "3d" 'd' = true := rfl
    have h2 : pyInt (strInit "3d") = some 3 := rfl
    have h3 : pyLower "3d" = "3d" := rfl
    rw [show generate_cost_report [] 0 "3d" =
        Except.ok (report_over "3d" [] (0 - 3 * 86400)) from by
      simp [generate_cost_report, h1, h2, h3]]
    norm_num [report_over, fetch_costs_since, round4, roundTo, roundHalfEven, List.filter]

theorem C8_cost_report_witness :
    generate_cost_report [] 0 "month" =
      Except.ok (report_over "month" [] (0 - 30 * 86400)) :=
  (C8_cost_report [] 0 "month" 0).1 rfl rfl

lemma analyse_irrel_costOk (acc : Bool) (f : String → Except String ProcessedImage)
    (m : Except String ModelReply) (aok b : Bool) (urls : List String) :
    analyse ⟨acc, f, m, aok, b⟩ urls = analyse ⟨acc, f, m, aok, true⟩ urls := rfl

/-- Claim C10: the cost-record insert outcome never influences the result
handed to the caller or the analyses collection, and a failing cost insert
leaves the costs collection untouched — in particular a run that persisted
its analysis still returns it when cost tracking fails. -/
theorem C10_cost_failure_isolated (env : Env) (req : AnalysisRequest) (user : UserT)
    (store : Store) :
    (process_analysis { env with costInsertOk := false } req user store).1 =
      (process_analysis { env with costInsertOk := true } req user store).1 ∧
    (process_analysis { env with costInsertOk := false } req user store).2.1.analyses =
      (process_analysis { env with costInsertOk := true } req user store).2.1.analyses ∧
    (process_analysis { env with costInsertOk := false } req user store).2.1.costs =
      store.costs := by
  obtain ⟨acc, f, m, aok, cok⟩ := env
  cases acc with
  | false => exact ⟨rfl, rfl, rfl⟩
  | true =>
    by_cases hmis : orgMismatch req user = true
    · simp [process_analysis, hmis]
    · simp only [process_analysis, analyse_irrel_costOk]
      rcases hana : analyse ⟨true, f, m, aok, true⟩ req.photo_urls with ⟨calls, res⟩
      cases res with
      | error e => simp [hmis]
      | ok vres =>
        cases hconf : floatOfConf vres.analysis.confidence with
        | error e => simp [hmis, hconf]
        | ok c =>
          cases aok with
          | false => simp [hmis, hconf]
          | true =>
            cases htok : vres.tokens_used with
            | none =>
              simp [hmis, hconf, htok, track_costs]
            | some t =>
              simp [hmis, hconf, htok, track_costs, track_analysis_cost]

end SmartScope
